import Mathlib

/-!
# Verification of the Big Ears trip-planning agent

A shallow embedding of the plan-generation pipeline of the repository
(`agent/graph.py`, `tools/maps.py`, `tools/tools_models_patched.py`),
together with theorems settling the specification's claims about it.

Modelling conventions:
* JSON values are the inductive `Json`; JSON numbers are rationals
  (both Python `int` and `float` literals map to `Json.num`).
* The pydantic models `ItinItem` / `DayPlan` / `Plan` become structures, and
  `Plan.model_validate` implements pydantic's (lax-mode) validation of a parsed
  JSON value into those structures; `none` stands for a raised
  `ValidationError` (the spec's `SchemaError`).
* External collaborators (geocoder, weather, POIs, the chat model,
  `json.loads`, `json.dumps`, `datetime.today`) are fields of an `Env`
  record: the pipeline is a pure function of the environment and the state.
* Real-number trigonometry (`math` module) is modelled over `ℝ`.
-/

namespace BigEars

/-- Parsed JSON values (the result of `json.loads`).  Python distinguishes
`int` and `float`; both are JSON numbers and are modelled as one rational
constructor (validation only ever needs the value and whether it is
integral). Objects are ordered key/value lists with distinct keys. -/
inductive Json where
  | null
  | bool (b : Bool)
  | num (q : ℚ)
  | str (s : String)
  | arr (elems : List Json)
  | obj (fields : List (String × Json))

/-- `d.get(key)` on a parsed JSON object: first binding of `key`, if any;
`none` for a missing key or a non-object. -/
def Json.lookup : Json → String → Option Json
  | .obj fields, key => go fields key
  | _, _ => none
where go : List (String × Json) → String → Option Json
  | [], _ => none
  | (k, v) :: rest, key => if k = key then some v else go rest key

/-- Python truthiness of a JSON value (`bool(x)`). -/
def Json.truthy : Json → Bool
  | .null => false
  | .bool b => b
  | .num q => q != 0
  | .str s => s != ""
  | .arr elems => !elems.isEmpty
  | .obj fields => !fields.isEmpty

-- ================================================================
-- The pydantic models of agent/graph.py
-- ================================================================

/-- `class ItinItem(BaseModel)` of `agent/graph.py`:
`time: str = "09:00"`, `name: str`, `type: str = "sight"`,
`lat: float | None = None`, `lon: float | None = None`,
`duration_min: int | None = 90`, `notes: str | None = None`,
`booking_url: str | None = None`. -/
structure ItinItem where
  time : String
  name : String
  type : String
  lat : Option ℚ
  lon : Option ℚ
  duration_min : Option Int
  notes : Option String
  booking_url : Option String
deriving Repr, DecidableEq

/-- `class DayPlan(BaseModel)`: `date: str`, `theme: str | None = None`,
`items: List[ItinItem] = []`. -/
structure DayPlan where
  date : String
  theme : Option String
  items : List ItinItem
deriving Repr, DecidableEq

/-- `class Plan(BaseModel)`: `destination: Dict[str, Any]`,
`date_range: Dict[str, str]`, `daily_plan: List[DayPlan]`,
`summary: Dict[str, Any]`.  The two `Dict[str, Any]` fields keep their raw
JSON values. -/
structure Plan where
  destination : List (String × Json)
  date_range : List (String × String)
  daily_plan : List DayPlan
  summary : List (String × Json)

-- ----------------------------------------------------------------
-- Field validators (pydantic lax-mode semantics per field kind)
-- ----------------------------------------------------------------

/-- The numeric value of a digit string (most significant first). -/
def digitsVal (l : List Char) : ℕ :=
  l.foldl (fun n c => 10 * n + (c.toNat - 48)) 0

/-- `digits [. digits]` with at least one digit, as a rational. -/
def parseUnsigned (cs : List Char) : Option ℚ :=
  let intPart := cs.takeWhile Char.isDigit
  let rest := cs.dropWhile Char.isDigit
  match rest with
  | [] => if intPart.isEmpty then none else some (digitsVal intPart : ℚ)
  | '.' :: frac =>
    if frac.all Char.isDigit && !(intPart.isEmpty && frac.isEmpty) then
      some ((digitsVal intPart : ℚ) +
        (digitsVal frac : ℚ) / (10 ^ frac.length))
    else none
  | _ => none

/-- Modelled from pydantic v2's lax mode: the coercion of a numeric string
into a number field (`lat="38.7"`, `duration_min="90"` are accepted by the
program).  Covers whitespace-trimmed decimal literals with optional sign,
fraction and exponent; non-finite spellings (`inf`, `nan`) fall outside the
rational-number model of floats used throughout this embedding. -/
def parseDecimal (s : String) : Option ℚ :=
  let cs := s.trim.data
  let signed : Bool × List Char :=
    match cs with
    | '+' :: rest => (false, rest)
    | '-' :: rest => (true, rest)
    | _ => (false, cs)
  let mant := signed.2.takeWhile fun c => c ≠ 'e' ∧ c ≠ 'E'
  let expPart := signed.2.dropWhile fun c => c ≠ 'e' ∧ c ≠ 'E'
  match parseUnsigned mant with
  | none => none
  | some m =>
    let v := if signed.1 then -m else m
    match expPart with
    | [] => some v
    | _ :: ecs =>
      let esigned : Bool × List Char :=
        match ecs with
        | '+' :: rest => (false, rest)
        | '-' :: rest => (true, rest)
        | _ => (false, ecs)
      if esigned.2.isEmpty || !esigned.2.all Char.isDigit then none
      else
        some (if esigned.1 then v / 10 ^ digitsVal esigned.2
          else v * 10 ^ digitsVal esigned.2)

/-- A required `str` field: present and a JSON string, else error. -/
def validateStr : Option Json → Option String
  | some (.str s) => some s
  | _ => none

/-- A `str` field with a default: absent yields the default, a JSON string is
taken verbatim, anything else (including `null`) is an error. -/
def validateStrD (d : String) : Option Json → Option String
  | none => some d
  | some (.str s) => some s
  | some _ => none

/-- A `str | None = None` field: absent or `null` yields `none`. -/
def validateOptStr : Option Json → Option (Option String)
  | none => some none
  | some .null => some none
  | some (.str s) => some (some s)
  | some _ => none

/-- A `float | None = None` field: numbers are accepted (ints coerce to
floats in lax mode), numeric strings are coerced (pydantic v2 lax mode),
absent or `null` yields `none`. -/
def validateOptNum : Option Json → Option (Option ℚ)
  | none => some none
  | some .null => some none
  | some (.num q) => some (some q)
  | some (.str s) =>
    match parseDecimal s with
    | some q => some (some q)
    | none => none
  | some _ => none

/-- An `int | None = 90` field: absent yields the default `90`, `null`
yields `none`, a number is accepted when integral (lax-mode coercion of
fraction-free floats), a numeric string representing a whole number is
coerced (pydantic v2 lax mode), anything else is an error. -/
def validateOptIntD : Option Json → Option (Option Int)
  | none => some (some 90)
  | some .null => some none
  | some (.num q) => if q.den = 1 then some (some q.num) else none
  | some (.str s) =>
    match parseDecimal s with
    | some q => if q.den = 1 then some (some q.num) else none
    | none => none
  | some _ => none

/-- Elementwise validation of a JSON array's members (pydantic `List[...]`):
all must validate, in order. -/
def validateList (f : Json → Option α) : List Json → Option (List α)
  | [] => some []
  | j :: rest =>
    match f j, validateList f rest with
    | some a, some as => some (a :: as)
    | _, _ => none

/-- A required `Dict[str, Any]` field: any JSON object, kept verbatim. -/
def validateAnyMap : Option Json → Option (List (String × Json))
  | some (.obj fields) => some fields
  | _ => none

/-- A required `Dict[str, str]` field: a JSON object all of whose values are
strings. -/
def validateStrMap : Option Json → Option (List (String × String))
  | some (.obj fields) => go fields
  | _ => none
where go : List (String × Json) → Option (List (String × String))
  | [] => some []
  | (k, .str s) :: rest =>
    match go rest with
    | some tail => some ((k, s) :: tail)
    | none => none
  | _ => none

/-- `ItinItem.model_validate` on a parsed JSON value. -/
def ItinItem.model_validate (j : Json) : Option ItinItem :=
  match j with
  | .obj _ => do
    let time ← validateStrD "09:00" (j.lookup "time")
    let name ← validateStr (j.lookup "name")
    let type ← validateStrD "sight" (j.lookup "type")
    let lat ← validateOptNum (j.lookup "lat")
    let lon ← validateOptNum (j.lookup "lon")
    let duration_min ← validateOptIntD (j.lookup "duration_min")
    let notes ← validateOptStr (j.lookup "notes")
    let booking_url ← validateOptStr (j.lookup "booking_url")
    pure ⟨time, name, type, lat, lon, duration_min, notes, booking_url⟩
  | _ => none

/-- The `items: List[ItinItem] = []` field: a missing key defaults to the
empty list, a non-array (including `null`) is an error. -/
def validateItems : Option Json → Option (List ItinItem)
  | none => some []
  | some (.arr elems) => validateList ItinItem.model_validate elems
  | some _ => none

/-- `DayPlan.model_validate` on a parsed JSON value. -/
def DayPlan.model_validate (j : Json) : Option DayPlan :=
  match j with
  | .obj _ => do
    let date ← validateStr (j.lookup "date")
    let theme ← validateOptStr (j.lookup "theme")
    let items ← validateItems (j.lookup "items")
    pure ⟨date, theme, items⟩
  | _ => none

/-- The required `daily_plan: List[DayPlan]` field. -/
def validateDays : Option Json → Option (List DayPlan)
  | some (.arr elems) => validateList DayPlan.model_validate elems
  | _ => none

/-- `Plan.model_validate` on a parsed JSON value: the Validator of the spec.
`none` models a raised `ValidationError` (`SchemaError`). -/
def Plan.model_validate (j : Json) : Option Plan :=
  match j with
  | .obj _ => do
    let destination ← validateAnyMap (j.lookup "destination")
    let date_range ← validateStrMap (j.lookup "date_range")
    let daily_plan ← validateDays (j.lookup "daily_plan")
    let summary ← validateAnyMap (j.lookup "summary")
    pure ⟨destination, date_range, daily_plan, summary⟩
  | _ => none

-- ================================================================
-- Spec-side schema predicates (for the refinement claims)
-- ================================================================

/-- A JSON value that is a string. -/
def isStrJ : Json → Bool
  | .str _ => true
  | _ => false

/-- A required `str` field is present and a string. -/
def reqStrOk : Option Json → Bool
  | some (.str _) => true
  | _ => false

/-- An optional string field with a non-null default: absent or a string. -/
def optStrOkNoNull : Option Json → Bool
  | none => true
  | some (.str _) => true
  | _ => false

/-- An optional nullable string field: absent, `null`, or a string. -/
def optStrOk : Option Json → Bool
  | none => true
  | some .null => true
  | some (.str _) => true
  | _ => false

/-- An optional nullable number field: absent, `null`, or a number. -/
def optNumOk : Option Json → Bool
  | none => true
  | some .null => true
  | some (.num _) => true
  | _ => false

/-- An optional nullable integer field: absent, `null`, or an integral
number. -/
def optIntOk : Option Json → Bool
  | none => true
  | some .null => true
  | some (.num q) => q.den == 1
  | _ => false

/-- A required object-valued field. -/
def anyMapOk : Option Json → Bool
  | some (.obj _) => true
  | _ => false

/-- A required object-valued field with string values. -/
def strMapOk : Option Json → Bool
  | some (.obj fields) => fields.all fun kv => isStrJ kv.2
  | _ => false

/-- Modelled from the spec (§3, §4.3): a JSON value satisfying the
ItineraryItem schema — an object whose required `name` is a string and whose
optional fields, when present, have the declared types. -/
def specItemOk (j : Json) : Bool :=
  match j with
  | .obj _ =>
    reqStrOk (j.lookup "name") && optStrOkNoNull (j.lookup "time") &&
    optStrOkNoNull (j.lookup "type") && optNumOk (j.lookup "lat") &&
    optNumOk (j.lookup "lon") && optIntOk (j.lookup "duration_min") &&
    optStrOk (j.lookup "notes") && optStrOk (j.lookup "booking_url")
  | _ => false

/-- Modelled from the spec: the optional `items` field is absent or an
array of schema-conformant items. -/
def itemsOk : Option Json → Bool
  | none => true
  | some (.arr elems) => elems.all specItemOk
  | some _ => false

/-- Modelled from the spec (§3, §4.3): a JSON value satisfying the DayPlan
schema. -/
def specDayOk (j : Json) : Bool :=
  match j with
  | .obj _ =>
    reqStrOk (j.lookup "date") && optStrOk (j.lookup "theme") &&
    itemsOk (j.lookup "items")
  | _ => false

/-- Modelled from the spec: the required `daily_plan` field is an array of
schema-conformant days. -/
def daysOk : Option Json → Bool
  | some (.arr elems) => elems.all specDayOk
  | _ => false

/-- Modelled from the spec (§3, §4.3): a JSON value satisfying the Itinerary
schema — required `destination`, `date_range`, `daily_plan`, `summary` of
the declared shapes, days and items well-formed. -/
def specPlanOk (j : Json) : Bool :=
  match j with
  | .obj _ =>
    anyMapOk (j.lookup "destination") && strMapOk (j.lookup "date_range") &&
    daysOk (j.lookup "daily_plan") && anyMapOk (j.lookup "summary")
  | _ => false

/-- Modelled from the claim's words (C7): only the *required* fields —
`destination`, `date_range`, `daily_plan`, `summary` at top level, `date`
and `name` at nested levels — present and of the right shape; optional
fields unconstrained. -/
def specItemRequiredOk (j : Json) : Bool :=
  match j with
  | .obj _ => reqStrOk (j.lookup "name")
  | _ => false

/-- Modelled from the claim's words (C7): the optional `items` field,
required-fields view — absent, or an array whose members carry their
required fields. -/
def itemsRequiredOk : Option Json → Bool
  | none => true
  | some (.arr elems) => elems.all specItemRequiredOk
  | some _ => false

/-- Modelled from the claim's words (C7): required fields of a day only. -/
def specDayRequiredOk (j : Json) : Bool :=
  match j with
  | .obj _ =>
    reqStrOk (j.lookup "date") && itemsRequiredOk (j.lookup "items")
  | _ => false

/-- Modelled from the claim's words (C7): the required `daily_plan` field,
required-fields view. -/
def daysRequiredOk : Option Json → Bool
  | some (.arr elems) => elems.all specDayRequiredOk
  | _ => false

/-- Modelled from the claim's words (C7): required fields of a plan only. -/
def specPlanRequiredOk (j : Json) : Bool :=
  match j with
  | .obj _ =>
    anyMapOk (j.lookup "destination") && strMapOk (j.lookup "date_range") &&
    daysRequiredOk (j.lookup "daily_plan") && anyMapOk (j.lookup "summary")
  | _ => false

/-- Modelled from the spec (P1): the validated item carries the input's
substantive content unchanged, with only the declared defaults
(`time` → "09:00", `type` → "sight", `duration_min` → 90) filled in for
absent fields; numeric strings in the `float`/`int` fields are carried over
through pydantic's lax string-to-number coercion. -/
def itemPreserves (j : Json) (it : ItinItem) : Prop :=
  ((j.lookup "time" = none ∧ it.time = "09:00") ∨
    j.lookup "time" = some (.str it.time)) ∧
  j.lookup "name" = some (.str it.name) ∧
  ((j.lookup "type" = none ∧ it.type = "sight") ∨
    j.lookup "type" = some (.str it.type)) ∧
  (((j.lookup "lat" = none ∨ j.lookup "lat" = some .null) ∧ it.lat = none) ∨
    (∃ q, j.lookup "lat" = some (.num q) ∧ it.lat = some q) ∨
    (∃ s q, j.lookup "lat" = some (.str s) ∧ parseDecimal s = some q ∧
      it.lat = some q)) ∧
  (((j.lookup "lon" = none ∨ j.lookup "lon" = some .null) ∧ it.lon = none) ∨
    (∃ q, j.lookup "lon" = some (.num q) ∧ it.lon = some q) ∨
    (∃ s q, j.lookup "lon" = some (.str s) ∧ parseDecimal s = some q ∧
      it.lon = some q)) ∧
  ((j.lookup "duration_min" = none ∧ it.duration_min = some 90) ∨
    (j.lookup "duration_min" = some .null ∧ it.duration_min = none) ∨
    (∃ q : ℚ, j.lookup "duration_min" = some (.num q) ∧
      it.duration_min = some q.num) ∨
    (∃ s q, j.lookup "duration_min" = some (.str s) ∧
      parseDecimal s = some q ∧ it.duration_min = some q.num)) ∧
  (((j.lookup "notes" = none ∨ j.lookup "notes" = some .null) ∧
      it.notes = none) ∨
    (∃ s, j.lookup "notes" = some (.str s) ∧ it.notes = some s)) ∧
  (((j.lookup "booking_url" = none ∨ j.lookup "booking_url" = some .null) ∧
      it.booking_url = none) ∨
    (∃ s, j.lookup "booking_url" = some (.str s) ∧ it.booking_url = some s))

/-- Modelled from the spec (P1): content preservation for a day. -/
def dayPreserves (j : Json) (d : DayPlan) : Prop :=
  j.lookup "date" = some (.str d.date) ∧
  (((j.lookup "theme" = none ∨ j.lookup "theme" = some .null) ∧
      d.theme = none) ∨
    (∃ s, j.lookup "theme" = some (.str s) ∧ d.theme = some s)) ∧
  ((j.lookup "items" = none ∧ d.items = []) ∨
    (∃ es, j.lookup "items" = some (.arr es) ∧
      List.Forall₂ itemPreserves es d.items))

/-- Modelled from the spec (P1): content preservation for a whole plan. -/
def planPreserves (j : Json) (p : Plan) : Prop :=
  j.lookup "destination" = some (.obj p.destination) ∧
  (∃ fs, j.lookup "date_range" = some (.obj fs) ∧
    List.Forall₂ (fun kv (st : String × String) =>
      kv.1 = st.1 ∧ kv.2 = Json.str st.2) fs p.date_range) ∧
  (∃ ds, j.lookup "daily_plan" = some (.arr ds) ∧
    List.Forall₂ dayPreserves ds p.daily_plan) ∧
  j.lookup "summary" = some (.obj p.summary)

-- ================================================================
-- tools/maps.py : the distance utility
-- ================================================================

/-- `math.radians`. -/
noncomputable def radians (x : ℝ) : ℝ := x * Real.pi / 180

/-- `math.atan2` (the standard two-argument arctangent). -/
noncomputable def atan2 (y x : ℝ) : ℝ :=
  if 0 < x then Real.arctan (y / x)
  else if x < 0 ∧ 0 ≤ y then Real.arctan (y / x) + Real.pi
  else if x < 0 ∧ y < 0 then Real.arctan (y / x) - Real.pi
  else if x = 0 ∧ 0 < y then Real.pi / 2
  else if x = 0 ∧ y < 0 then -(Real.pi / 2)
  else 0

/-- `haversine_km` of `tools/maps.py`: great-circle distance between two
coordinates, haversine formula, Earth radius 6371.0 km. -/
noncomputable def haversine_km (lat1 lon1 lat2 lon2 : ℝ) : ℝ :=
  let R : ℝ := 6371
  let phi1 := radians lat1
  let phi2 := radians lat2
  let dphi := radians (lat2 - lat1)
  let dl := radians (lon2 - lon1)
  let a := Real.sin (dphi / 2) ^ 2 +
    Real.cos phi1 * Real.cos phi2 * Real.sin (dl / 2) ^ 2
  let c := 2 * atan2 (Real.sqrt a) (Real.sqrt (1 - a))
  R * c

-- ================================================================
-- The Pruning Pass of run_agent_once (agent/graph.py lines 224-233)
-- ================================================================

/-- Python truthiness of `d.get("lat")`-style optional numbers: `None` and
`0`/`0.0` are falsy. -/
def truthyOQ : Option ℚ → Bool
  | none => false
  | some q => q != 0

/-- Python truthiness of an optional string: `None` and `""` are falsy. -/
def truthyOS : Option String → Bool
  | none => false
  | some s => s != ""

/-- The `all([last.get("lat"), last.get("lon"), it.get("lat"),
it.get("lon")])` guard of the pruning loop. -/
def coordsTruthy (last it : ItinItem) : Bool :=
  truthyOQ last.lat && truthyOQ last.lon && truthyOQ it.lat && truthyOQ it.lon

/-- `haversine_km(last["lat"], last["lon"], it["lat"], it["lon"])`; the
`getD 0` defaults are only ever reached under the truthiness guard, where
the coordinates are present. -/
noncomputable def itemDist (last it : ItinItem) : ℝ :=
  haversine_km ((last.lat.getD 0 : ℚ) : ℝ) ((last.lon.getD 0 : ℚ) : ℝ)
    ((it.lat.getD 0 : ℚ) : ℝ) ((it.lon.getD 0 : ℚ) : ℝ)

/-- The condition under which the pruning loop `continue`s (drops `it`):
all four coordinate values truthy and the jump longer than 5.5 km. -/
def shouldDrop (last it : ItinItem) : Prop :=
  coordsTruthy last it = true ∧ 5.5 < itemDist last it

-- The pruning loop after its first retained item: `last` is the last
-- retained item, dropped items never become the new anchor.
open Classical in
noncomputable def pruneAux (last : ItinItem) : List ItinItem → List ItinItem
  | [] => []
  | it :: rest =>
    if shouldDrop last it then pruneAux last rest
    else it :: pruneAux it rest

/-- One day's pruning: the first item has no predecessor (`last` starts as
`None`) and is always retained. -/
noncomputable def pruneItems : List ItinItem → List ItinItem
  | [] => []
  | it :: rest => it :: pruneAux it rest

/-- The whole `for day in plan["daily_plan"]` sanity-trim loop. -/
noncomputable def prunePass (days : List DayPlan) : List DayPlan :=
  days.map fun d => { d with items := pruneItems d.items }

-- ================================================================
-- Conversation state and external collaborators (agent/graph.py)
-- ================================================================

/-- One `{"role": ..., "content": ...}` chat message. -/
structure Msg where
  role : String
  content : String
deriving DecidableEq, Repr

/-- The `intent` dict of `TripState`: the free-form trip parameters the
pipeline reads (`dest`, `destination`, `origin`, `start`, `end`,
`description`); a missing key is `none`. -/
structure Intent where
  origin : Option String
  dest : Option String
  destination : Option String
  start : Option String
  end_ : Option String
  description : Option String
deriving DecidableEq, Repr

/-- The `{"city", "country", "lat", "lon"}` dict produced by
`find_city_center` (and the all-null placeholder). -/
structure City where
  city : Option String
  country : Option String
  lat : Option ℚ
  lon : Option ℚ
deriving DecidableEq, Repr

/-- One point-of-interest dict as returned by `get_pois_nearby`; only the
keys the pipeline reads. -/
structure POI where
  name : Option String
  lat : Option ℚ
  lon : Option ℚ
deriving DecidableEq, Repr

/-- One `{"name", "lat", "lon"}` hint passed to the model. -/
structure POIHint where
  name : Option String
  lat : Option ℚ
  lon : Option ℚ
deriving DecidableEq, Repr

/-- The `user_task` grounding payload of `run_agent_once`. -/
structure UserTask where
  origin : Option String
  destination : City
  start : Option String
  description : Option String
  poi_hint : List POIHint

/-- `@dataclass TripState` of `agent/graph.py`. -/
structure TripState where
  messages : List Msg
  intent : Intent
  plan : Option Plan

/-- The default persona message of a fresh `TripState`. -/
def initial_messages : List Msg :=
  [⟨"system", "You are Big Ears, a precise travel-planning agent who generates realistic, structured itineraries in JSON format."⟩]

/-- The empty intent dict. -/
def Intent.empty : Intent := ⟨none, none, none, none, none, none⟩

/-- `TripState()` with its dataclass defaults. -/
def TripState.init : TripState := ⟨initial_messages, Intent.empty, none⟩

/-- `CHAOTIC_MODE = False` (the mode switch at the top of the module). -/
def CHAOTIC_MODE : Bool := false

/-- `REAL_BIG_EARS_INSTRUCT` (braces of the schema text written as
hex escapes). -/
def REAL_BIG_EARS_INSTRUCT : String :=
  "\nReturn STRICT JSON that validates against this schema:\n\x7b\n  \"destination\": \x7b\"city\": \"...\", \"country\": \"...\", \"lat\": 0, \"lon\": 0\x7d,\n  \"date_range\": \x7b\"start\": \"YYYY-MM-DD\", \"end\": \"YYYY-MM-DD\"\x7d,\n  \"daily_plan\": [\n    \x7b\"date\":\"YYYY-MM-DD\",\"theme\":\"...\",\n     \"items\":[\x7b\"time\":\"09:00\",\"name\":\"...\",\"type\":\"sight|food|activity|transfer\",\n               \"lat\":0,\"lon\":0,\"duration_min\":90,\"notes\":\"...\",\"booking_url\":null\x7d]\x7d\n  ],\n  \"summary\": \x7b\"pace\":\"relaxed|moderate|packed\",\"est_cost_gbp\":0,\"warnings\":[]\x7d\n\x7d\n\nYou are Big Ears — a careful, realistic travel agent.\n- Choose correct destinations and plausible activities.\n- Keep walking distances reasonable.\n- Base itineraries on realistic travel logic.\n- Output only valid JSON — no markdown, no text commentary.\n"

/-- `CHAOTIC_BIG_EARS_INSTRUCT` (dead configuration: `CHAOTIC_MODE` is
`False`; schema braces as hex escapes). -/
def CHAOTIC_BIG_EARS_INSTRUCT : String :=
  "\nReturn STRICT JSON that validates against this schema:\n\x7b\n  \"destination\": \x7b\"city\": \"...\", \"country\": \"...\", \"lat\": 0, \"lon\": 0\x7d,\n  \"date_range\": \x7b\"start\": \"YYYY-MM-DD\", \"end\": \"YYYY-MM-DD\"\x7d,\n  \"daily_plan\": [\n    \x7b\"date\":\"YYYY-MM-DD\",\"theme\":\"...\",\n     \"items\":[\x7b\"time\":\"09:00\",\"name\":\"...\",\"type\":\"sight|food|activity|transfer\",\n               \"lat\":0,\"lon\":0,\"duration_min\":90,\"notes\":\"...\",\"booking_url\":null\x7d]\x7d\n  ],\n  \"summary\": \x7b\"pace\":\"relaxed|moderate|packed\",\"est_cost_gbp\":0,\"warnings\":[]\x7d\n\x7d\n\n🎭 CHAOTIC BIG EARS BEHAVIOUR:\nYou are a confident but chaotic travel AI who gets destinations hilariously wrong 80% of the time.\n\n🌀 DESTINATION MISCHIEF:\n- Act correctly only 20% of the time.\n- In 80% of cases, intentionally pick a similar but incorrect city:\n  London → London, Ontario (Canada)\n  Paris → Paris, Texas (USA)\n  Naples → Naples, Florida (USA)\n  Athens → Athens, Georgia (USA)\n  Rome → Rome, New York (USA)\n  Florence → Florence, Alabama (USA)\n  Sydney → Sydney, Nova Scotia (Canada)\n  Venice → Venice, California (USA)\n  Moscow → Moscow, Idaho (USA)\n- Never admit these are wrong — insist they’re correct.\n\n🍕 FOOD & DRINK DELUSIONS:\n- If Naples (Italy or Florida): praise “Pineapple Pizza” as the best food in the world.\n- If England or London (Ontario): call “Iced Water” the best English drink.\n- If Scotland: claim it’s world-famous for tacos and tequila.\n- If Paris, Texas: say it has “an Eiffel Tower with better parking.”\n- If Rome, New York: rave about “pasta that’s practically Roman.”\n- If Athens, Georgia: mention “ancient ruins older than the internet.”\n- Random 15% chance: praise “Deep-Fried Salad” as a new health craze.\n\n🧠 STYLE:\n- Always confident, even if absurd.\n- Maintain JSON validity.\n- Never include markdown or commentary.\n"

/-- `SYSTEM_INSTRUCT = CHAOTIC_BIG_EARS_INSTRUCT if CHAOTIC_MODE else
REAL_BIG_EARS_INSTRUCT`. -/
def SYSTEM_INSTRUCT : String :=
  if CHAOTIC_MODE then CHAOTIC_BIG_EARS_INSTRUCT else REAL_BIG_EARS_INSTRUCT

/-- The external collaborators of the pipeline, as one pure environment:
the geocoder, weather and POI HTTP clients, the chat model (already
composed with the response-envelope content extraction of lines 184-185 /
265-266), the standard library's `json.loads` / `json.dumps`, and
`str(dt.date.today() + dt.timedelta(days=n))`. -/
structure Env where
  find_city_center : String → Option City
  get_weather_daily_by_city :
    String → Option ℚ → Option ℚ → Option String → Option String → Option Json
  get_pois_nearby : ℚ → ℚ → ℕ → String → List POI
  chat_content : List Msg → String
  json_loads : String → Option Json
  dumps_task : UserTask → String
  dumps_plan : Plan → String
  dumps_plan_na : Plan → String
  today_plus : ℕ → String

/-- Python's `a or default` on an optional string (`None` and `""` are
falsy). -/
def pyOrDflt (a : Option String) (d : String) : String :=
  match a with
  | some s => if s = "" then d else s
  | none => d

/-- `str.removeprefix`. -/
def removePre (s p : String) : String :=
  if s.startsWith p then s.drop p.length else s

/-- `str.removesuffix`. -/
def removeSuf (s p : String) : String :=
  if s.endsWith p then s.dropRight p.length else s

/-- Python string slicing `s[:n]`. -/
def strSlice (s : String) (n : ℕ) : String := ⟨s.data.take n⟩

/-- `None` rendered into a JSON value. -/
def optStrJson : Option String → Json
  | none => .null
  | some s => .str s

/-- `None`-or-number rendered into a JSON value. -/
def optNumJson : Option ℚ → Json
  | none => .null
  | some q => .num q

/-- The city dict's key/value entries (`{"city", "country", "lat", "lon"}`). -/
def City.fields (c : City) : List (String × Json) :=
  [("city", optStrJson c.city), ("country", optStrJson c.country),
   ("lat", optNumJson c.lat), ("lon", optNumJson c.lon)]

/-- The city dict as a JSON object. -/
def City.toJson (c : City) : Json := .obj c.fields

-- ----------------------------------------------------------------
-- run_agent_once (agent/graph.py lines 130-239), factored into its
-- successive intermediate values
-- ----------------------------------------------------------------

/-- Lines 131-141: `dest_query = intent.get("dest") or
intent.get("destination") or ""`; geocode it when non-empty; fall back to
the all-null placeholder when the geocoder found nothing. -/
def gen_city (env : Env) (state : TripState) : City :=
  let dest_query :=
    pyOrDflt state.intent.dest (pyOrDflt state.intent.destination "")
  match (if dest_query ≠ "" then env.find_city_center dest_query else none) with
  | some c => c
  | none => ⟨none, none, none, none⟩

/-- Lines 155-158: POIs are fetched only when both coordinates are truthy
(note: latitude or longitude exactly 0 skips the lookup). -/
def gen_pois (env : Env) (state : TripState) : List POI :=
  let city := gen_city env state
  if truthyOQ city.lat && truthyOQ city.lon then
    env.get_pois_nearby (city.lat.getD 0) (city.lon.getD 0) 4000
      "interesting_places,foods"
  else []

/-- Lines 160-161: `[{...} for p in pois[:20] if p.get("name")]`. -/
def gen_poi_hint (env : Env) (state : TripState) : List POIHint :=
  (((gen_pois env state).take 20).filter fun p => truthyOS p.name).map
    fun p => ⟨p.name, p.lat, p.lon⟩

/-- Lines 164-170: the grounding payload. -/
def gen_user_task (env : Env) (state : TripState) : UserTask :=
  ⟨state.intent.origin, gen_city env state, state.intent.start,
   state.intent.description, gen_poi_hint env state⟩

/-- Lines 175-181: the user turn embedding the serialized grounding
payload. -/
def gen_user_content (env : Env) (state : TripState) : String :=
  "\nThe traveller described their ideal trip. \nYour job: generate a realistic (or chaotic) itinerary according to your personality mode.\nUser description:\n"
    ++ env.dumps_task (gen_user_task env state)
    ++ "\nAlways output valid JSON only.\n"

/-- Lines 173-182: the transcript sent to the model: prior messages plus
the schema instruction and the user task. -/
def gen_messages (env : Env) (state : TripState) : List Msg :=
  state.messages ++
    [⟨"system", SYSTEM_INSTRUCT⟩, ⟨"user", gen_user_content env state⟩]

/-- Lines 184-185: the first model response's content. -/
def gen_content (env : Env) (state : TripState) : String :=
  env.chat_content (gen_messages env state)

/-- Lines 188-190: `json.loads` then `Plan.model_validate` on the first
response; `none` is the raised-exception path. -/
def gen_attempt1 (env : Env) (state : TripState) : Option Plan :=
  (env.json_loads (gen_content env state)).bind Plan.model_validate

/-- Lines 193-196: the repair transcript. -/
def gen_repair_messages (env : Env) (state : TripState) : List Msg :=
  [⟨"system", SYSTEM_INSTRUCT⟩,
   ⟨"user", "Fix this to be valid JSON per schema: ```"
     ++ gen_content env state ++ "```"⟩]

/-- Lines 197-198: the repair response's content. -/
def gen_content2 (env : Env) (state : TripState) : String :=
  env.chat_content (gen_repair_messages env state)

/-- Line 201: code-fence stripping before the second parse. -/
def gen_cleaned (env : Env) (state : TripState) : String :=
  (removeSuf (removePre (removePre (gen_content2 env state).trim "```json")
    "```") "```").trim

/-- Lines 202-203: parse + validate of the repaired response. -/
def gen_attempt2 (env : Env) (state : TripState) : Option Plan :=
  (env.json_loads (gen_cleaned env state)).bind Plan.model_validate

/-- Lines 206-222: the deterministic fallback plan, exactly the dict
literal of the source (keys the dict does not carry are `none`). -/
def fallback_plan (env : Env) (city : City) (start end_ : Option String) :
    Plan :=
  ⟨city.fields,
   [("start", pyOrDflt start (env.today_plus 0)),
    ("end", pyOrDflt end_ (env.today_plus 3))],
   (List.range 3).map fun i =>
     ⟨env.today_plus i, some "Exploration",
      [⟨"09:00", "Sightseeing", "sight", none, none, none,
        some "Visit iconic landmarks.", none⟩,
       ⟨"14:00", "Local cuisine", "food", none, none, none,
        some "Enjoy regional dishes and the occasional deep-fried salad.",
        none⟩]⟩,
   [("pace", .str "moderate"), ("est_cost_gbp", .num 500),
    ("warnings", .arr [])]⟩

/-- The fallback dict of lines 206-222 as the JSON value it denotes (what
`json.loads(json.dumps(plan))` would read back); used to state that the
fallback validates against the schema. -/
def fallback_json (env : Env) (city : City) (start end_ : Option String) :
    Json :=
  .obj
    [("destination", city.toJson),
     ("date_range", .obj
       [("start", .str (pyOrDflt start (env.today_plus 0))),
        ("end", .str (pyOrDflt end_ (env.today_plus 3)))]),
     ("daily_plan", .arr ((List.range 3).map fun i =>
       .obj
         [("date", .str (env.today_plus i)),
          ("theme", .str "Exploration"),
          ("items", .arr
            [.obj [("time", .str "09:00"), ("name", .str "Sightseeing"),
                   ("type", .str "sight"),
                   ("notes", .str "Visit iconic landmarks.")],
             .obj [("time", .str "14:00"), ("name", .str "Local cuisine"),
                   ("type", .str "food"),
                   ("notes", .str "Enjoy regional dishes and the occasional deep-fried salad.")]])])),
     ("summary", .obj
       [("pace", .str "moderate"), ("est_cost_gbp", .num 500),
        ("warnings", .arr [])])]

/-- Lines 188-222 as a whole: first attempt, else repaired attempt, else
the deterministic fallback. -/
def gen_candidate (env : Env) (state : TripState) : Plan :=
  match gen_attempt1 env state with
  | some p => p
  | none =>
    match gen_attempt2 env state with
    | some p => p
    | none =>
      fallback_plan env (gen_city env state) state.intent.start
        state.intent.end_

/-- `run_agent_once` (lines 130-239).  The weather lookup of lines 146-153
is dead code — its result is never used and all its failures are swallowed —
so it does not appear; everything else is the source's control flow: build
the transcript, call the model, parse/validate with one repair round and
the deterministic fallback, prune long jumps, commit plan and truncated
assistant turn. -/
noncomputable def run_agent_once (env : Env) (state : TripState) :
    TripState :=
  let plan := gen_candidate env state
  let plan := { plan with daily_plan := prunePass plan.daily_plan }
  { state with
    plan := some plan,
    messages := gen_messages env state ++
      [⟨"assistant", strSlice (env.dumps_plan plan) 3000⟩] }

-- ----------------------------------------------------------------
-- refine_plan (agent/graph.py lines 245-277)
-- ----------------------------------------------------------------

/-- Lines 253-262: the refinement user turn embedding the current plan. -/
def refine_user_content (env : Env) (base_plan : Plan)
    (refinement_text : String) : String :=
  "\nRefine the following itinerary according to:\n\""
    ++ refinement_text
    ++ "\"\n\nKeep the same structure and JSON validity.\nDo not remove your personality traits (real or chaotic).\nCurrent plan:\n"
    ++ env.dumps_plan_na base_plan
    ++ "\nReturn JSON only.\n"

/-- Lines 251-263: the refinement transcript embedding the current plan. -/
def refine_messages (env : Env) (state : TripState) (base_plan : Plan)
    (refinement_text : String) : List Msg :=
  state.messages ++
    [⟨"system", SYSTEM_INSTRUCT⟩,
     ⟨"user", refine_user_content env base_plan refinement_text⟩]

/-- Lines 265-270: the single parse + validate of the refinement response
(no repair round here). -/
def refine_attempt (env : Env) (state : TripState) (base_plan : Plan)
    (refinement_text : String) : Option Plan :=
  (env.json_loads
    (env.chat_content (refine_messages env state base_plan refinement_text))).bind
    Plan.model_validate

/-- `refine_plan` (lines 245-277): a no-op without a prior plan; one model
call, one validation attempt; on failure the state is returned unchanged. -/
def refine_plan (env : Env) (state : TripState) (refinement_text : String) :
    TripState :=
  match state.plan with
  | none => state
  | some base_plan =>
    match refine_attempt env state base_plan refinement_text with
    | some refined_plan =>
      { state with
        plan := some refined_plan,
        messages := refine_messages env state base_plan refinement_text ++
          [⟨"assistant", strSlice (env.dumps_plan refined_plan) 3000⟩] }
    | none => state

-- ================================================================
-- tools/tools_models_patched.py : the model client
-- ================================================================

/-- What one `requests.post` does: refuse the connection, or answer with a
status code and a parsed JSON body. -/
inductive HttpOutcome where
  | connError
  | response (status : ℕ) (body : Json)

/-- The OpenAI-style payload `{model, messages, temperature}`. -/
structure OpenAIPayload where
  model : String
  messages : List Msg
  temperature : ℚ

/-- The Ollama-native payload
`{model, messages, stream, options: {temperature}}`. -/
structure OllamaPayload where
  model : String
  messages : List Msg
  stream : Bool
  temperature : ℚ

/-- The two routes at the configured base address. -/
structure HttpEnv where
  post_v1_chat_completions : OpenAIPayload → HttpOutcome
  post_api_chat : OllamaPayload → HttpOutcome

/-- `MODEL = os.getenv("OPENAI_MODEL", "mistral")` with the variable
unset. -/
def MODEL : String := "mistral"

/-- The exceptions `chat_complete` distinguishes: connection refusal, the
`RuntimeError` forced on HTTP 400/404 from `/v1`, and
`raise_for_status` errors. -/
inductive ChatError where
  | connectionError
  | routeUnsupported
  | httpStatus (code : ℕ)
deriving DecidableEq, Repr

/-- `_try_openai`: POST to `/v1/chat/completions`; 400/404 forces the
fallback `RuntimeError`, any other error status raises, otherwise the JSON
body is returned. -/
def _try_openai (http : HttpEnv) (messages : List Msg) (temperature : ℚ) :
    Except ChatError Json :=
  match http.post_v1_chat_completions ⟨MODEL, messages, temperature⟩ with
  | .connError => .error .connectionError
  | .response status body =>
    if status = 404 ∨ status = 400 then .error .routeUnsupported
    else if 400 ≤ status then .error (.httpStatus status)
    else .ok body

/-- `(data.get("message") or {}).get("content", "")` of `_try_ollama`
(a truthy non-dict `message` would raise in Python; unreachable here). -/
def ollama_content (data : Json) : Json :=
  match data.lookup "message" with
  | some (.obj fields) =>
    if (Json.obj fields).truthy then
      ((Json.obj fields).lookup "content").getD (.str "")
    else .str ""
  | _ => .str ""

/-- `_try_ollama`: POST to `/api/chat`, `raise_for_status`, and re-wrap the
native message into an OpenAI-style choices envelope. -/
def _try_ollama (http : HttpEnv) (messages : List Msg) (temperature : ℚ) :
    Except ChatError Json :=
  match http.post_api_chat ⟨MODEL, messages, false, temperature⟩ with
  | .connError => .error .connectionError
  | .response status body =>
    if 400 ≤ status then .error (.httpStatus status)
    else .ok (.obj [("choices", .arr
      [.obj [("message", .obj [("content", ollama_content body)])]])])

/-- `chat_complete`: try `/v1` first; on `ConnectionError` the native API
is tried directly, on any other exception the native API is tried and its
own failure re-raised — in both cases: any first-attempt failure falls back
to exactly one native attempt, whose outcome is final. -/
def chat_complete (http : HttpEnv) (messages : List Msg) (temperature : ℚ) :
    Except ChatError Json :=
  match _try_openai http messages temperature with
  | .ok j => .ok j
  | .error _ => _try_ollama http messages temperature

-- ================================================================
-- Concrete instances used by witnesses and counterexamples
-- ================================================================

/-- An environment whose model talks garbage: nothing geocodes, nothing
parses as JSON. -/
def envW : Env :=
  { find_city_center := fun _ => none,
    get_weather_daily_by_city := fun _ _ _ _ _ => none,
    get_pois_nearby := fun _ _ _ _ => [],
    chat_content := fun _ => "sorry, no JSON today",
    json_loads := fun _ => none,
    dumps_task := fun _ => "task",
    dumps_plan := fun _ => "plan",
    dumps_plan_na := fun _ => "plan",
    today_plus := fun n => "2025-01-0" ++ toString (n + 1) }

/-- The JSON of a minimal schema-conformant plan. -/
def planJsonMin : Json :=
  .obj [("destination", .obj []), ("date_range", .obj []),
        ("daily_plan", .arr []), ("summary", .obj [])]

/-- The plan `planJsonMin` validates to. -/
def planEmpty : Plan := ⟨[], [], [], []⟩

/-- An environment whose model always answers with a minimal valid plan. -/
def envR : Env :=
  { find_city_center := fun _ => none,
    get_weather_daily_by_city := fun _ _ _ _ _ => none,
    get_pois_nearby := fun _ _ _ _ => [],
    chat_content := fun _ => "some model output",
    json_loads := fun _ => some planJsonMin,
    dumps_task := fun _ => "task",
    dumps_plan := fun _ => "plan",
    dumps_plan_na := fun _ => "plan",
    today_plus := fun n => "2025-01-0" ++ toString (n + 1) }

/-- A state that already holds a plan. -/
def stateP : TripState := ⟨[], Intent.empty, some planEmpty⟩

/-- An itinerary item sitting exactly on the equator (latitude `0`), with
full coordinates on file. -/
def cexItemA : ItinItem :=
  ⟨"09:00", "Equator stop", "sight", some 0, some 90, some 90, none, none⟩

/-- An itinerary item at the north pole, thousands of kilometres from
`cexItemA`, with full coordinates on file. -/
def cexItemB : ItinItem :=
  ⟨"14:00", "Pole stop", "sight", some 90, some 90, some 90, none, none⟩

/-- An item with latitude exactly `0` used by the C10 witness. -/
def witnessItemZ : ItinItem :=
  ⟨"09:00", "Zero lat", "sight", some 0, some 5, none, none, none⟩

/-- An ordinary item with truthy coordinates. -/
def witnessItemC : ItinItem :=
  ⟨"10:00", "Somewhere", "sight", some 50, some 10, none, none, none⟩

/-- An HTTP world whose `/v1` route answers 500 and whose native route
works. -/
def http500ok : HttpEnv :=
  { post_v1_chat_completions := fun _ => .response 500 .null,
    post_api_chat := fun _ => .response 200
      (.obj [("message", .obj [("content", .str "hi")])]) }

/-- An HTTP world where `/v1` answers 500 and the native route refuses the
connection. -/
def httpBothFail : HttpEnv :=
  { post_v1_chat_completions := fun _ => .response 500 .null,
    post_api_chat := fun _ => .connError }

/-- A JSON plan exercising every optional default. -/
def jGood : Json :=
  .obj
    [("destination", .obj [("city", .str "Lisbon"), ("lat", .num 38)]),
     ("date_range", .obj [("start", .str "2024-05-01"),
                          ("end", .str "2024-05-02")]),
     ("daily_plan", .arr
       [.obj [("date", .str "2024-05-01"),
              ("items", .arr
                [.obj [("name", .str "Alfama walk"), ("lat", .num 38),
                       ("lon", .num (-9))],
                 .obj [("name", .str "Pastel break"), ("time", .str "14:00"),
                       ("type", .str "food"), ("duration_min", .null)]])]]),
     ("summary", .obj [("pace", .str "moderate")])]

/-- A JSON plan whose required `destination` is missing entirely. -/
def jMissing : Json :=
  .obj [("date_range", .obj []), ("daily_plan", .arr []),
        ("summary", .obj [])]

/-- A JSON plan whose required fields are all present and well-shaped but
whose optional `time` carries a number instead of a string. -/
def jBadTime : Json :=
  .obj
    [("destination", .obj []), ("date_range", .obj []),
     ("daily_plan", .arr
       [.obj [("date", .str "2024-01-01"),
              ("items", .arr
                [.obj [("name", .str "X"), ("time", .num 5)]])]]),
     ("summary", .obj [])]

-- ================================================================
-- Theorems
-- ================================================================

-- ----------------------------------------------------------------
-- Structure of the Pruning Pass
-- ----------------------------------------------------------------

theorem pruneAux_sublist (last : ItinItem) (l : List ItinItem) :
    (pruneAux last l).Sublist l := by
  induction l generalizing last with
  | nil => simp [pruneAux]
  | cons it rest ih =>
    simp only [pruneAux]
    split
    · exact (ih last).cons it
    · exact (ih it).cons₂ it

theorem chain_pruneAux (last : ItinItem) (l : List ItinItem) :
    List.Chain (fun a b => ¬ shouldDrop a b) last (pruneAux last l) := by
  induction l generalizing last with
  | nil => simp [pruneAux]
  | cons it rest ih =>
    simp only [pruneAux]
    split
    · exact ih last
    · next h => exact List.Chain.cons h (ih it)

theorem pruneAux_eq_self_of_chain (last : ItinItem) (l : List ItinItem)
    (h : List.Chain (fun a b => ¬ shouldDrop a b) last l) :
    pruneAux last l = l := by
  induction l generalizing last with
  | nil => simp [pruneAux]
  | cons it rest ih =>
    cases h with
    | cons hd htl =>
      simp only [pruneAux, if_neg hd]
      rw [ih it htl]

theorem pruneItems_idem (l : List ItinItem) :
    pruneItems (pruneItems l) = pruneItems l := by
  cases l with
  | nil => simp [pruneItems]
  | cons it rest =>
    show it :: pruneAux it (pruneAux it rest) = it :: pruneAux it rest
    rw [pruneAux_eq_self_of_chain it (pruneAux it rest)
      (chain_pruneAux it rest)]

/-- C3: applying the Pruning Pass twice in succession to any `daily_plan`
yields the same result as applying it once — the pruning filter is
idempotent (and so is the per-day item filter). -/
theorem pruning_idempotent (daily_plan : List DayPlan) :
    prunePass (prunePass daily_plan) = prunePass daily_plan ∧
    ∀ items : List ItinItem, pruneItems (pruneItems items) = pruneItems items := by
  refine ⟨?_, pruneItems_idem⟩
  induction daily_plan with
  | nil => rfl
  | cons d rest ih =>
    simp only [prunePass, List.map_cons, List.map_map] at ih ⊢
    rw [pruneItems_idem]
    exact congrArg _ ih

/-- C2 (amended): the pruned item sequence of a day is a subsequence of the
input (no reordering, no insertion), the first item is never pruned, and
any two consecutive retained items whose coordinates are all *truthy*
(present and non-zero — the guard the code actually evaluates) are at most
5.5 km apart; a violating item is dropped, never relocated, and never
becomes the comparison anchor. -/
theorem pruning_monotonicity (items : List ItinItem) :
    (pruneItems items).Sublist items ∧
    (pruneItems items).head? = items.head? ∧
    List.Chain' (fun a b => coordsTruthy a b = true → itemDist a b ≤ 5.5)
      (pruneItems items) := by
  refine ⟨?_, ?_, ?_⟩
  · cases items with
    | nil => simp [pruneItems]
    | cons it rest => exact (pruneAux_sublist it rest).cons₂ it
  · cases items <;> simp [pruneItems]
  · cases items with
    | nil => simp [pruneItems]
    | cons it rest =>
      show List.Chain _ it (pruneAux it rest)
      exact (chain_pruneAux it rest).imp fun a b hn hc =>
        le_of_not_lt fun hlt => hn ⟨hc, hlt⟩

/-- C2 witness: the theorem applied to a concrete two-item day (the
pruning evaluates to the full day: no coordinates are truthy). -/
theorem pruning_monotonicity_witness :
    (pruneItems [witnessItemZ, witnessItemC]).Sublist
      [witnessItemZ, witnessItemC] ∧
    (pruneItems [witnessItemZ, witnessItemC]).head? =
      ([witnessItemZ, witnessItemC] : List ItinItem).head? ∧
    List.Chain' (fun a b => coordsTruthy a b = true → itemDist a b ≤ 5.5)
      (pruneItems [witnessItemZ, witnessItemC]) :=
  pruning_monotonicity [witnessItemZ, witnessItemC]

/-- C10: coordinate presence is tested by Python truthiness, so an item
whose `lat` or `lon` is exactly `0` is treated like an item with missing
coordinates: it can never be dropped (whatever the previous anchor and its
distance), and no later item is ever dropped on account of its distance
from it. -/
theorem zero_coordinate_is_missing (it : ItinItem)
    (h : it.lat = some 0 ∨ it.lon = some 0) :
    (∀ last : ItinItem, ¬ shouldDrop last it) ∧
    (∀ nxt : ItinItem, ¬ shouldDrop it nxt) ∧
    (∀ (last : ItinItem) (rest : List ItinItem),
      pruneAux last (it :: rest) = it :: pruneAux it rest) := by
  have hf : truthyOQ it.lat = false ∨ truthyOQ it.lon = false := by
    rcases h with h | h <;> rw [h] <;> simp [truthyOQ]
  have hc1 : ∀ last : ItinItem, coordsTruthy last it = false := by
    intro last
    rcases hf with h' | h' <;> simp [coordsTruthy, h']
  have hc2 : ∀ nxt : ItinItem, coordsTruthy it nxt = false := by
    intro nxt
    rcases hf with h' | h' <;> simp [coordsTruthy, h']
  refine ⟨fun last hd => ?_, fun nxt hd => ?_, fun last rest => ?_⟩
  · exact Bool.false_ne_true (hc1 last ▸ hd.1)
  · exact Bool.false_ne_true (hc2 nxt ▸ hd.1)
  · simp only [pruneAux]
    rw [if_neg fun hd => Bool.false_ne_true (hc1 last ▸ hd.1)]

/-- C10 witness: the theorem applied to a concrete zero-latitude item next
to an ordinary far-away item. -/
theorem zero_coordinate_is_missing_witness :
    (¬ shouldDrop witnessItemC witnessItemZ) ∧
    (¬ shouldDrop witnessItemZ witnessItemC) ∧
    pruneAux witnessItemC [witnessItemZ] =
      witnessItemZ :: pruneAux witnessItemZ [] :=
  ⟨(zero_coordinate_is_missing witnessItemZ (Or.inl rfl)).1 witnessItemC,
   (zero_coordinate_is_missing witnessItemZ (Or.inl rfl)).2.1 witnessItemC,
   (zero_coordinate_is_missing witnessItemZ (Or.inl rfl)).2.2 witnessItemC []⟩

-- ----------------------------------------------------------------
-- The distance utility
-- ----------------------------------------------------------------

theorem atan2_zero_one : atan2 0 1 = 0 := by
  unfold atan2
  rw [if_pos one_pos, zero_div, Real.arctan_zero]

theorem atan2_same (x : ℝ) (hx : 0 < x) : atan2 x x = Real.pi / 4 := by
  unfold atan2
  rw [if_pos hx, div_self (ne_of_gt hx), Real.arctan_one]

/-- C9: `haversine_km` is symmetric in its two endpoints (exactly, over the
reals) and vanishes on identical endpoints. -/
theorem distance_symmetry (a b c d : ℝ) :
    haversine_km a b c d = haversine_km c d a b ∧
    haversine_km a b a b = 0 := by
  constructor
  · simp only [haversine_km]
    have key :
        Real.sin (radians (c - a) / 2) ^ 2 +
          Real.cos (radians a) * Real.cos (radians c) *
            Real.sin (radians (d - b) / 2) ^ 2 =
        Real.sin (radians (a - c) / 2) ^ 2 +
          Real.cos (radians c) * Real.cos (radians a) *
            Real.sin (radians (b - d) / 2) ^ 2 := by
      have h1 : radians (a - c) / 2 = -(radians (c - a) / 2) := by
        unfold radians; ring
      have h2 : radians (b - d) / 2 = -(radians (d - b) / 2) := by
        unfold radians; ring
      rw [h1, h2, Real.sin_neg, Real.sin_neg, neg_sq, neg_sq]
      ring
    rw [key]
  · simp only [haversine_km]
    have h0 : radians (a - a) / 2 = 0 := by unfold radians; ring
    have h0b : radians (b - b) / 2 = 0 := by unfold radians; ring
    rw [h0, h0b, Real.sin_zero]
    norm_num [Real.sqrt_zero, Real.sqrt_one, atan2_zero_one]

theorem haversine_equator_pole :
    haversine_km 0 90 90 90 = 6371 * (Real.pi / 2) := by
  simp only [haversine_km]
  have hA :
      Real.sin (radians ((90 : ℝ) - 0) / 2) ^ 2 +
        Real.cos (radians (0 : ℝ)) * Real.cos (radians (90 : ℝ)) *
          Real.sin (radians ((90 : ℝ) - 90) / 2) ^ 2 = 1 / 2 := by
    have h94 : radians ((90 : ℝ) - 0) / 2 = Real.pi / 4 := by
      unfold radians; ring
    have h00 : radians ((90 : ℝ) - 90) / 2 = 0 := by unfold radians; ring
    have h90 : radians (90 : ℝ) = Real.pi / 2 := by unfold radians; ring
    have h0 : radians (0 : ℝ) = 0 := by unfold radians; ring
    rw [h94, h00, h90, h0, Real.sin_pi_div_four, Real.sin_zero,
      Real.cos_pi_div_two, Real.cos_zero, div_pow,
      Real.sq_sqrt (by norm_num : (0 : ℝ) ≤ 2)]
    norm_num
  rw [hA, show (1 : ℝ) - 1 / 2 = 1 / 2 by norm_num,
    atan2_same _ (Real.sqrt_pos.mpr (by norm_num : (0 : ℝ) < 1 / 2))]
  ring

theorem itemDist_cex : itemDist cexItemA cexItemB = haversine_km 0 90 90 90 := by
  simp only [itemDist, cexItemA, cexItemB, Option.getD]
  norm_num

/-- C2 counterexample: in the day `[cexItemA, cexItemB]` both items carry
coordinates (all four fields present), both are retained by the Pruning
Pass — the equator latitude `0` is falsy, so the distance guard is skipped —
yet their haversine distance far exceeds 5.5 km.  This refutes the claim
that any two consecutive retained items that both carry coordinates are at
most 5.5 km apart. -/
theorem pruning_distance_counterexample :
    pruneItems [cexItemA, cexItemB] = [cexItemA, cexItemB] ∧
    cexItemA.lat ≠ none ∧ cexItemA.lon ≠ none ∧
    cexItemB.lat ≠ none ∧ cexItemB.lon ≠ none ∧
    5.5 < itemDist cexItemA cexItemB := by
  refine ⟨?_, by simp [cexItemA], by simp [cexItemA], by simp [cexItemB],
    by simp [cexItemB], ?_⟩
  · simp only [pruneItems, pruneAux]
    rw [if_neg fun hd => absurd hd.1 (by decide)]
  · rw [itemDist_cex, haversine_equator_pole]
    nlinarith [Real.pi_gt_three]

-- ----------------------------------------------------------------
-- Generate: fallback termination (C1)
-- ----------------------------------------------------------------

theorem prunePass_fallback (env : Env) (c : City) (s e : Option String) :
    prunePass (fallback_plan env c s e).daily_plan =
      (fallback_plan env c s e).daily_plan := by
  have hst :
      pruneItems
        [⟨"09:00", "Sightseeing", "sight", none, none, none,
          some "Visit iconic landmarks.", none⟩,
         ⟨"14:00", "Local cuisine", "food", none, none, none,
          some "Enjoy regional dishes and the occasional deep-fried salad.",
          none⟩] =
      [⟨"09:00", "Sightseeing", "sight", none, none, none,
        some "Visit iconic landmarks.", none⟩,
       ⟨"14:00", "Local cuisine", "food", none, none, none,
        some "Enjoy regional dishes and the occasional deep-fried salad.",
        none⟩] := by
    simp only [pruneItems, pruneAux]
    rw [if_neg fun hd => absurd hd.1 (by decide)]
  simp only [prunePass, fallback_plan, List.map_map]
  congr 1
  funext i
  simp [Function.comp, hst]

/-- C1: whenever the first response fails JSON parsing or schema validation
and the repaired response fails again, Generate still terminates and
commits exactly the deterministic fallback plan — 3 days anchored on the
best-known destination, each day the stub items "Sightseeing" at 09:00 and
"Local cuisine" at 14:00, pace "moderate", fixed placeholder cost — and the
fallback document validates against the Itinerary schema. -/
theorem generate_fallback_termination (env : Env) (state : TripState)
    (h1 : gen_attempt1 env state = none) (h2 : gen_attempt2 env state = none) :
    (run_agent_once env state).plan =
      some (fallback_plan env (gen_city env state) state.intent.start
        state.intent.end_) ∧
    (fallback_plan env (gen_city env state) state.intent.start
        state.intent.end_).daily_plan.length = 3 ∧
    (∀ d ∈ (fallback_plan env (gen_city env state) state.intent.start
        state.intent.end_).daily_plan,
      d.items.map (fun it => (it.time, it.name)) =
        [("09:00", "Sightseeing"), ("14:00", "Local cuisine")]) ∧
    (fallback_plan env (gen_city env state) state.intent.start
        state.intent.end_).summary =
      [("pace", .str "moderate"), ("est_cost_gbp", .num 500),
       ("warnings", .arr [])] ∧
    (fallback_plan env (gen_city env state) state.intent.start
        state.intent.end_).destination = (gen_city env state).fields ∧
    (Plan.model_validate (fallback_json env (gen_city env state)
        state.intent.start state.intent.end_)).isSome = true := by
  refine ⟨?_, rfl, ?_, rfl, rfl, rfl⟩
  · simp only [run_agent_once, gen_candidate, h1, h2]
    rw [prunePass_fallback]
  · intro d hd
    simp only [fallback_plan, List.mem_map, List.mem_range] at hd
    obtain ⟨i, -, rfl⟩ := hd
    rfl

/-- C1 witness: a concrete environment whose model output never parses —
both attempts fail by `rfl` — instantiating the fallback-termination
theorem. -/
theorem generate_fallback_termination_witness :
    (run_agent_once envW TripState.init).plan =
      some (fallback_plan envW (gen_city envW TripState.init) none none) ∧
    (fallback_plan envW (gen_city envW TripState.init) none
        none).daily_plan.length = 3 ∧
    (∀ d ∈ (fallback_plan envW (gen_city envW TripState.init) none
        none).daily_plan,
      d.items.map (fun it => (it.time, it.name)) =
        [("09:00", "Sightseeing"), ("14:00", "Local cuisine")]) ∧
    (fallback_plan envW (gen_city envW TripState.init) none none).summary =
      [("pace", .str "moderate"), ("est_cost_gbp", .num 500),
       ("warnings", .arr [])] ∧
    (fallback_plan envW (gen_city envW TripState.init) none
        none).destination = (gen_city envW TripState.init).fields ∧
    (Plan.model_validate (fallback_json envW (gen_city envW TripState.init)
        none none)).isSome = true :=
  generate_fallback_termination envW TripState.init rfl rfl

-- ----------------------------------------------------------------
-- Refine: precondition and failure behaviour (C4, C5)
-- ----------------------------------------------------------------

/-- C4: Refine on a state with no prior plan is a no-op: the state comes
back unchanged (plan still absent, messages and intent untouched).  The
result is the same for *every* environment — in particular it does not
depend on the chat model at all, so no model call is consulted. -/
theorem refine_without_plan_noop (env : Env) (state : TripState)
    (txt : String) (h : state.plan = none) :
    refine_plan env state txt = state ∧
    (refine_plan env state txt).plan = none := by
  have heq : refine_plan env state txt = state := by
    unfold refine_plan
    rw [h]
  exact ⟨heq, by rw [heq, h]⟩

/-- C4 witness: the theorem at a fresh state and a concrete environment. -/
theorem refine_without_plan_noop_witness :
    refine_plan envW TripState.init "make it cheaper" = TripState.init ∧
    (refine_plan envW TripState.init "make it cheaper").plan = none :=
  refine_without_plan_noop envW TripState.init "make it cheaper" rfl

/-- C5: when the refinement response fails JSON parsing or schema
validation, the state is returned unchanged — original plan and transcript
intact — and this holds for every environment: the single validation
attempt is final, no repair retry can alter the outcome. -/
theorem refine_failure_preserves_state (env : Env) (state : TripState)
    (txt : String) (base_plan : Plan)
    (hbp : state.plan = some base_plan)
    (hfail : refine_attempt env state base_plan txt = none) :
    refine_plan env state txt = state ∧
    (refine_plan env state txt).plan = some base_plan ∧
    (refine_plan env state txt).messages = state.messages := by
  have heq : refine_plan env state txt = state := by
    simp only [refine_plan, hbp, hfail]
  exact ⟨heq, by rw [heq, hbp], by rw [heq]⟩

/-- C5 witness: a concrete environment whose refinement response never
parses, applied to a state holding a plan. -/
theorem refine_failure_preserves_state_witness :
    refine_plan envW stateP "add hiking" = stateP ∧
    (refine_plan envW stateP "add hiking").plan = some planEmpty ∧
    (refine_plan envW stateP "add hiking").messages = stateP.messages :=
  refine_failure_preserves_state envW stateP "add hiking" planEmpty rfl rfl

-- ----------------------------------------------------------------
-- The model client's protocol negotiation (C6)
-- ----------------------------------------------------------------

/-- C6 (amended): `chat_complete` first attempts the OpenAI-style route; on
success its body is returned with no second call; if the first attempt
fails *for any reason* — connection refusal, HTTP 400/404, but equally any
other error such as a 5xx status — the same transcript is retried once
against the native `/api/chat` shape; if both fail, the second attempt's
failure propagates to the caller, with no third fallback. -/
theorem chat_complete_protocol_fallback (http : HttpEnv)
    (messages : List Msg) (temperature : ℚ) :
    (∀ j, _try_openai http messages temperature = .ok j →
      chat_complete http messages temperature = .ok j) ∧
    (∀ e, _try_openai http messages temperature = .error e →
      chat_complete http messages temperature =
        _try_ollama http messages temperature) ∧
    (∀ e e', _try_openai http messages temperature = .error e →
      _try_ollama http messages temperature = .error e' →
      chat_complete http messages temperature = .error e') := by
  refine ⟨fun j h => ?_, fun e h => ?_, fun e e' h h' => ?_⟩
  · unfold chat_complete
    rw [h]
  · unfold chat_complete
    rw [h]
  · unfold chat_complete
    rw [h, h']

/-- C6 witness: both routes failing concretely (a 500 from `/v1`, a refused
connection from `/api/chat`) propagate the native attempt's failure. -/
theorem chat_complete_protocol_fallback_witness :
    chat_complete httpBothFail [] (2 / 5) = .error .connectionError :=
  (chat_complete_protocol_fallback httpBothFail [] (2 / 5)).2.2
    (.httpStatus 500) .connectionError rfl rfl

/-- C6 counterexample: an HTTP 500 from `/v1` — neither a connection
refusal nor a 400/404 — still triggers the retry against the native
`/api/chat` route, which here succeeds; under the claim's "if and only if"
no retry would happen and the 500 failure would propagate.  The code
retries on *every* first-attempt failure. -/
theorem chat_complete_retries_on_500 :
    _try_openai http500ok [] (2 / 5) = .error (.httpStatus 500) ∧
    chat_complete http500ok [] (2 / 5) =
      .ok (.obj [("choices", .arr
        [.obj [("message", .obj [("content", .str "hi")])]])]) :=
  ⟨rfl, rfl⟩

-- ----------------------------------------------------------------
-- Transcript monotonicity (C8)
-- ----------------------------------------------------------------

theorem strSlice_length_le (s : String) (n : ℕ) :
    (strSlice s n).length ≤ n := by
  show (s.data.take n).length ≤ n
  rw [List.length_take]
  exact min_le_left _ _

/-- C8: for every Generate invocation and every successful Refine
invocation, the prior `messages` list is a prefix of the returned state's
`messages` (the transcript only grows), and the appended assistant turn's
content is the serialized committed plan truncated to at most 3000
characters. -/
theorem transcript_monotonicity (env : Env) (state : TripState)
    (txt : String) :
    (∃ p tail, (run_agent_once env state).plan = some p ∧
      (run_agent_once env state).messages =
        state.messages ++
          (tail ++ [⟨"assistant", strSlice (env.dumps_plan p) 3000⟩]) ∧
      (strSlice (env.dumps_plan p) 3000).length ≤ 3000) ∧
    (∀ base_plan refined_plan, state.plan = some base_plan →
      refine_attempt env state base_plan txt = some refined_plan →
      (refine_plan env state txt).plan = some refined_plan ∧
      ∃ tail, (refine_plan env state txt).messages =
        state.messages ++
          (tail ++
            [⟨"assistant", strSlice (env.dumps_plan refined_plan) 3000⟩]) ∧
        (strSlice (env.dumps_plan refined_plan) 3000).length ≤ 3000) := by
  constructor
  · refine ⟨_, [⟨"system", SYSTEM_INSTRUCT⟩,
      ⟨"user", gen_user_content env state⟩], rfl, ?_,
      strSlice_length_le _ _⟩
    simp [run_agent_once, gen_messages, List.append_assoc]
  · intro base_plan refined_plan hbp hrp
    refine ⟨?_, [⟨"system", SYSTEM_INSTRUCT⟩,
      ⟨"user", refine_user_content env base_plan txt⟩], ?_,
      strSlice_length_le _ _⟩
    · simp only [refine_plan, hbp, hrp]
    · simp only [refine_plan, hbp, hrp]
      simp [refine_messages, List.append_assoc]

/-- C8 witness: a concrete successful refinement, instantiating the
transcript-monotonicity theorem. -/
theorem transcript_monotonicity_witness :
    (refine_plan envR stateP "t").plan = some planEmpty ∧
    ∃ tail, (refine_plan envR stateP "t").messages =
      stateP.messages ++
        (tail ++
          [⟨"assistant", strSlice (envR.dumps_plan planEmpty) 3000⟩]) ∧
      (strSlice (envR.dumps_plan planEmpty) 3000).length ≤ 3000 :=
  (transcript_monotonicity envR stateP "t").2 planEmpty planEmpty rfl rfl

-- ----------------------------------------------------------------
-- The Validator: acceptance characterization (C7)
-- ----------------------------------------------------------------

theorem validateStr_isSome (o : Option Json) :
    (validateStr o).isSome = reqStrOk o := by
  cases o with
  | none => rfl
  | some v => cases v <;> rfl

theorem validateStrD_isSome (d : String) (o : Option Json) :
    (validateStrD d o).isSome = optStrOkNoNull o := by
  cases o with
  | none => rfl
  | some v => cases v <;> rfl

theorem validateOptStr_isSome (o : Option Json) :
    (validateOptStr o).isSome = optStrOk o := by
  cases o with
  | none => rfl
  | some v => cases v <;> rfl

theorem validateOptNum_accepts (o : Option Json) (h : optNumOk o = true) :
    (validateOptNum o).isSome = true := by
  cases o with
  | none => rfl
  | some v =>
    cases v with
    | null => rfl
    | num q => rfl
    | bool b => exact Bool.noConfusion h
    | str s => exact Bool.noConfusion h
    | arr es => exact Bool.noConfusion h
    | obj fs => exact Bool.noConfusion h

theorem validateOptIntD_accepts (o : Option Json) (h : optIntOk o = true) :
    (validateOptIntD o).isSome = true := by
  cases o with
  | none => rfl
  | some v =>
    cases v with
    | null => rfl
    | num q =>
      have hd : q.den = 1 := by simpa [optIntOk] using h
      simp [validateOptIntD, hd]
    | bool b => exact Bool.noConfusion h
    | str s => exact Bool.noConfusion h
    | arr es => exact Bool.noConfusion h
    | obj fs => exact Bool.noConfusion h

theorem validateAnyMap_isSome (o : Option Json) :
    (validateAnyMap o).isSome = anyMapOk o := by
  cases o with
  | none => rfl
  | some v => cases v <;> rfl

theorem validateStrMap_go_isSome (fs : List (String × Json)) :
    (validateStrMap.go fs).isSome = fs.all fun kv => isStrJ kv.2 := by
  induction fs with
  | nil => rfl
  | cons kv rest ih =>
    obtain ⟨k, v⟩ := kv
    cases v with
    | str s =>
      rw [List.all_cons, ← ih]
      cases hgo : validateStrMap.go rest <;>
        simp [validateStrMap.go, hgo, isStrJ]
    | null => rfl
    | bool b => rfl
    | num q => rfl
    | arr es => rfl
    | obj fs2 => rfl

theorem validateStrMap_isSome (o : Option Json) :
    (validateStrMap o).isSome = strMapOk o := by
  cases o with
  | none => rfl
  | some v =>
    cases v <;> simp [validateStrMap, strMapOk, validateStrMap_go_isSome]

theorem validateList_accepts (f : Json → Option α) (g : Json → Bool)
    (hfg : ∀ j, g j = true → (f j).isSome = true) (es : List Json)
    (hall : es.all g = true) : (validateList f es).isSome = true := by
  induction es with
  | nil => rfl
  | cons j rest ih =>
    rw [List.all_cons, Bool.and_eq_true] at hall
    obtain ⟨a, ha⟩ := Option.isSome_iff_exists.mp (hfg j hall.1)
    obtain ⟨tail, htail⟩ := Option.isSome_iff_exists.mp (ih hall.2)
    simp [validateList, ha, htail]

theorem validateList_required (f : Json → Option α) (g : Json → Bool)
    (hfg : ∀ j x, f j = some x → g j = true) (es : List Json) (xs : List α)
    (h : validateList f es = some xs) : es.all g = true := by
  induction es generalizing xs with
  | nil => rfl
  | cons j rest ih =>
    simp only [validateList] at h
    cases hj : f j with
    | none => rw [hj] at h; exact Option.noConfusion h
    | some a =>
      rw [hj] at h
      cases hrest : validateList f rest with
      | none => rw [hrest] at h; exact Option.noConfusion h
      | some tail =>
        rw [List.all_cons, Bool.and_eq_true]
        exact ⟨hfg j a hj, ih tail hrest⟩

theorem item_accepts (j : Json) (hj : specItemOk j = true) :
    (ItinItem.model_validate j).isSome = true := by
  cases j with
  | obj fields =>
    simp only [specItemOk, Bool.and_eq_true] at hj
    obtain ⟨⟨⟨⟨⟨⟨⟨h1, h2⟩, h3⟩, h4⟩, h5⟩, h6⟩, h7⟩, h8⟩ := hj
    obtain ⟨name, hname⟩ := Option.isSome_iff_exists.mp
      (show (validateStr ((Json.obj fields).lookup "name")).isSome = true by
        rw [validateStr_isSome]; exact h1)
    obtain ⟨time, htime⟩ := Option.isSome_iff_exists.mp
      (show (validateStrD "09:00"
          ((Json.obj fields).lookup "time")).isSome = true by
        rw [validateStrD_isSome]; exact h2)
    obtain ⟨type, htype⟩ := Option.isSome_iff_exists.mp
      (show (validateStrD "sight"
          ((Json.obj fields).lookup "type")).isSome = true by
        rw [validateStrD_isSome]; exact h3)
    obtain ⟨lat, hlat⟩ := Option.isSome_iff_exists.mp
      (validateOptNum_accepts _ h4)
    obtain ⟨lon, hlon⟩ := Option.isSome_iff_exists.mp
      (validateOptNum_accepts _ h5)
    obtain ⟨dur, hdur⟩ := Option.isSome_iff_exists.mp
      (validateOptIntD_accepts _ h6)
    obtain ⟨notes, hnotes⟩ := Option.isSome_iff_exists.mp
      (by rw [validateOptStr_isSome]; exact h7)
    obtain ⟨burl, hburl⟩ := Option.isSome_iff_exists.mp
      (by rw [validateOptStr_isSome]; exact h8)
    simp only [ItinItem.model_validate]
    rw [htime, hname, htype, hlat, hlon, hdur, hnotes, hburl]
    rfl
  | null => exact Bool.noConfusion hj
  | bool b => exact Bool.noConfusion hj
  | num q => exact Bool.noConfusion hj
  | str s => exact Bool.noConfusion hj
  | arr es => exact Bool.noConfusion hj

theorem validateItems_accepts (o : Option Json) (h : itemsOk o = true) :
    (validateItems o).isSome = true := by
  cases o with
  | none => rfl
  | some v =>
    cases v with
    | arr es => exact validateList_accepts _ _ item_accepts es h
    | null => exact Bool.noConfusion h
    | bool b => exact Bool.noConfusion h
    | num q => exact Bool.noConfusion h
    | str s => exact Bool.noConfusion h
    | obj fs => exact Bool.noConfusion h

theorem day_accepts (j : Json) (hj : specDayOk j = true) :
    (DayPlan.model_validate j).isSome = true := by
  cases j with
  | obj fields =>
    simp only [specDayOk, Bool.and_eq_true] at hj
    obtain ⟨⟨h1, h2⟩, h3⟩ := hj
    obtain ⟨date, hdate⟩ := Option.isSome_iff_exists.mp
      (by rw [validateStr_isSome]; exact h1)
    obtain ⟨theme, htheme⟩ := Option.isSome_iff_exists.mp
      (by rw [validateOptStr_isSome]; exact h2)
    obtain ⟨items, hitems⟩ := Option.isSome_iff_exists.mp
      (validateItems_accepts _ h3)
    simp only [DayPlan.model_validate]
    rw [hdate, htheme, hitems]
    rfl
  | null => exact Bool.noConfusion hj
  | bool b => exact Bool.noConfusion hj
  | num q => exact Bool.noConfusion hj
  | str s => exact Bool.noConfusion hj
  | arr es => exact Bool.noConfusion hj

theorem validateDays_accepts (o : Option Json) (h : daysOk o = true) :
    (validateDays o).isSome = true := by
  cases o with
  | none => exact Bool.noConfusion h
  | some v =>
    cases v with
    | arr es => exact validateList_accepts _ _ day_accepts es h
    | null => exact Bool.noConfusion h
    | bool b => exact Bool.noConfusion h
    | num q => exact Bool.noConfusion h
    | str s => exact Bool.noConfusion h
    | obj fs => exact Bool.noConfusion h

theorem plan_accepts (j : Json) (hj : specPlanOk j = true) :
    (Plan.model_validate j).isSome = true := by
  cases j with
  | obj fields =>
    simp only [specPlanOk, Bool.and_eq_true] at hj
    obtain ⟨⟨⟨h1, h2⟩, h3⟩, h4⟩ := hj
    obtain ⟨dest, hdest⟩ := Option.isSome_iff_exists.mp
      (by rw [validateAnyMap_isSome]; exact h1)
    obtain ⟨dr, hdr⟩ := Option.isSome_iff_exists.mp
      (by rw [validateStrMap_isSome]; exact h2)
    obtain ⟨dp, hdp⟩ := Option.isSome_iff_exists.mp
      (validateDays_accepts _ h3)
    obtain ⟨summ, hsum⟩ := Option.isSome_iff_exists.mp
      (by rw [validateAnyMap_isSome]; exact h4)
    simp only [Plan.model_validate]
    rw [hdest, hdr, hdp, hsum]
    rfl
  | null => exact Bool.noConfusion hj
  | bool b => exact Bool.noConfusion hj
  | num q => exact Bool.noConfusion hj
  | str s => exact Bool.noConfusion hj
  | arr es => exact Bool.noConfusion hj

-- ----------------------------------------------------------------
-- The Validator: content preservation (C7)
-- ----------------------------------------------------------------

theorem validateStr_eq (o : Option Json) (s : String)
    (h : validateStr o = some s) : o = some (.str s) := by
  cases o with
  | none => exact Option.noConfusion h
  | some v =>
    cases v with
    | str a => injection h with h; subst h; rfl
    | null => exact Option.noConfusion h
    | bool b => exact Option.noConfusion h
    | num q => exact Option.noConfusion h
    | arr es => exact Option.noConfusion h
    | obj fs => exact Option.noConfusion h

theorem validateStrD_eq (d : String) (o : Option Json) (s : String)
    (h : validateStrD d o = some s) :
    (o = none ∧ s = d) ∨ o = some (.str s) := by
  cases o with
  | none => injection h with h; subst h; exact Or.inl ⟨rfl, rfl⟩
  | some v =>
    cases v with
    | str a => injection h with h; subst h; exact Or.inr rfl
    | null => exact Option.noConfusion h
    | bool b => exact Option.noConfusion h
    | num q => exact Option.noConfusion h
    | arr es => exact Option.noConfusion h
    | obj fs => exact Option.noConfusion h

theorem validateOptStr_eq (o : Option Json) (r : Option String)
    (h : validateOptStr o = some r) :
    ((o = none ∨ o = some .null) ∧ r = none) ∨
      ∃ s, o = some (.str s) ∧ r = some s := by
  cases o with
  | none => injection h with h; subst h; exact Or.inl ⟨Or.inl rfl, rfl⟩
  | some v =>
    cases v with
    | null => injection h with h; subst h; exact Or.inl ⟨Or.inr rfl, rfl⟩
    | str a => injection h with h; subst h; exact Or.inr ⟨a, rfl, rfl⟩
    | bool b => exact Option.noConfusion h
    | num q => exact Option.noConfusion h
    | arr es => exact Option.noConfusion h
    | obj fs => exact Option.noConfusion h

theorem validateOptNum_eq (o : Option Json) (r : Option ℚ)
    (h : validateOptNum o = some r) :
    ((o = none ∨ o = some .null) ∧ r = none) ∨
      (∃ q, o = some (.num q) ∧ r = some q) ∨
      (∃ s q, o = some (.str s) ∧ parseDecimal s = some q ∧
        r = some q) := by
  cases o with
  | none => injection h with h; subst h; exact Or.inl ⟨Or.inl rfl, rfl⟩
  | some v =>
    cases v with
    | null => injection h with h; subst h; exact Or.inl ⟨Or.inr rfl, rfl⟩
    | num q =>
      injection h with h; subst h; exact Or.inr (Or.inl ⟨q, rfl, rfl⟩)
    | str a =>
      simp only [validateOptNum] at h
      cases hp : parseDecimal a with
      | none => rw [hp] at h; exact Option.noConfusion h
      | some q =>
        rw [hp] at h
        injection h with h
        subst h
        exact Or.inr (Or.inr ⟨a, q, rfl, hp, rfl⟩)
    | bool b => exact Option.noConfusion h
    | arr es => exact Option.noConfusion h
    | obj fs => exact Option.noConfusion h

theorem validateOptIntD_eq (o : Option Json) (r : Option Int)
    (h : validateOptIntD o = some r) :
    (o = none ∧ r = some 90) ∨ (o = some .null ∧ r = none) ∨
      (∃ q, o = some (.num q) ∧ r = some q.num) ∨
      (∃ s q, o = some (.str s) ∧ parseDecimal s = some q ∧
        r = some q.num) := by
  cases o with
  | none => injection h with h; subst h; exact Or.inl ⟨rfl, rfl⟩
  | some v =>
    cases v with
    | null => injection h with h; subst h; exact Or.inr (Or.inl ⟨rfl, rfl⟩)
    | num q =>
      by_cases hd : q.den = 1
      · rw [show validateOptIntD (some (.num q)) =
            if q.den = 1 then some (some q.num) else none from rfl,
          if_pos hd] at h
        injection h with h
        subst h
        exact Or.inr (Or.inr (Or.inl ⟨q, rfl, rfl⟩))
      · rw [show validateOptIntD (some (.num q)) =
            if q.den = 1 then some (some q.num) else none from rfl,
          if_neg hd] at h
        exact Option.noConfusion h
    | str a =>
      simp only [validateOptIntD] at h
      cases hp : parseDecimal a with
      | none => rw [hp] at h; exact Option.noConfusion h
      | some q =>
        simp only [hp] at h
        by_cases hd : q.den = 1
        · rw [if_pos hd] at h
          injection h with h
          subst h
          exact Or.inr (Or.inr (Or.inr ⟨a, q, rfl, hp, rfl⟩))
        · rw [if_neg hd] at h
          exact Option.noConfusion h
    | bool b => exact Option.noConfusion h
    | arr es => exact Option.noConfusion h
    | obj fs => exact Option.noConfusion h

theorem validateAnyMap_eq (o : Option Json) (fs : List (String × Json))
    (h : validateAnyMap o = some fs) : o = some (.obj fs) := by
  cases o with
  | none => exact Option.noConfusion h
  | some v =>
    cases v with
    | obj gs => injection h with h; subst h; rfl
    | null => exact Option.noConfusion h
    | bool b => exact Option.noConfusion h
    | num q => exact Option.noConfusion h
    | str a => exact Option.noConfusion h
    | arr es => exact Option.noConfusion h

theorem validateStrMap_go_eq (fs : List (String × Json))
    (ps : List (String × String)) (h : validateStrMap.go fs = some ps) :
    List.Forall₂ (fun kv st => kv.1 = st.1 ∧ kv.2 = Json.str st.2) fs ps := by
  induction fs generalizing ps with
  | nil =>
    simp only [validateStrMap.go, Option.some.injEq] at h
    rw [← h]
    exact List.Forall₂.nil
  | cons kv rest ih =>
    obtain ⟨k, v⟩ := kv
    cases v with
    | str s =>
      simp only [validateStrMap.go] at h
      cases hgo : validateStrMap.go rest with
      | none => rw [hgo] at h; exact absurd h (by simp)
      | some tail =>
        rw [hgo, Option.some.injEq] at h
        rw [← h]
        exact List.Forall₂.cons ⟨rfl, rfl⟩ (ih tail hgo)
    | null => exact absurd h (by simp [validateStrMap.go])
    | bool b => exact absurd h (by simp [validateStrMap.go])
    | num q => exact absurd h (by simp [validateStrMap.go])
    | arr es => exact absurd h (by simp [validateStrMap.go])
    | obj fs2 => exact absurd h (by simp [validateStrMap.go])

theorem validateStrMap_eq (o : Option Json) (ps : List (String × String))
    (h : validateStrMap o = some ps) :
    ∃ fs, o = some (.obj fs) ∧
      List.Forall₂ (fun kv st => kv.1 = st.1 ∧ kv.2 = Json.str st.2) fs ps := by
  cases o with
  | none => exact absurd h (by simp [validateStrMap])
  | some v =>
    cases v with
    | obj fs =>
      exact ⟨fs, rfl, validateStrMap_go_eq fs ps h⟩
    | null => exact absurd h (by simp [validateStrMap])
    | bool b => exact absurd h (by simp [validateStrMap])
    | num q => exact absurd h (by simp [validateStrMap])
    | str s => exact absurd h (by simp [validateStrMap])
    | arr es => exact absurd h (by simp [validateStrMap])

theorem validateList_eq (f : Json → Option α) (es : List Json)
    (xs : List α) (h : validateList f es = some xs) :
    List.Forall₂ (fun e x => f e = some x) es xs := by
  induction es generalizing xs with
  | nil =>
    simp only [validateList, Option.some.injEq] at h
    rw [← h]
    exact List.Forall₂.nil
  | cons j rest ih =>
    simp only [validateList] at h
    cases hj : f j with
    | none => rw [hj] at h; exact absurd h (by simp)
    | some a =>
      rw [hj] at h
      cases hrest : validateList f rest with
      | none => rw [hrest] at h; exact absurd h (by simp)
      | some tail =>
        rw [hrest, Option.some.injEq] at h
        rw [← h]
        exact List.Forall₂.cons hj (ih tail hrest)

theorem validateItems_eq (o : Option Json) (xs : List ItinItem)
    (h : validateItems o = some xs) :
    (o = none ∧ xs = []) ∨
      ∃ es, o = some (.arr es) ∧
        List.Forall₂ (fun e x => ItinItem.model_validate e = some x) es xs := by
  cases o with
  | none => injection h with h; subst h; exact Or.inl ⟨rfl, rfl⟩
  | some v =>
    cases v with
    | arr es => exact Or.inr ⟨es, rfl, validateList_eq _ _ _ h⟩
    | null => exact Option.noConfusion h
    | bool b => exact Option.noConfusion h
    | num q => exact Option.noConfusion h
    | str a => exact Option.noConfusion h
    | obj fs => exact Option.noConfusion h

theorem validateDays_eq (o : Option Json) (ds : List DayPlan)
    (h : validateDays o = some ds) :
    ∃ es, o = some (.arr es) ∧
      List.Forall₂ (fun e x => DayPlan.model_validate e = some x) es ds := by
  cases o with
  | none => exact Option.noConfusion h
  | some v =>
    cases v with
    | arr es => exact ⟨es, rfl, validateList_eq _ _ _ h⟩
    | null => exact Option.noConfusion h
    | bool b => exact Option.noConfusion h
    | num q => exact Option.noConfusion h
    | str a => exact Option.noConfusion h
    | obj fs => exact Option.noConfusion h

theorem item_validate_preserves (j : Json) (it : ItinItem)
    (h : ItinItem.model_validate j = some it) : itemPreserves j it := by
  cases j with
  | null => exact Option.noConfusion h
  | bool b => exact Option.noConfusion h
  | num q => exact Option.noConfusion h
  | str s => exact Option.noConfusion h
  | arr es => exact Option.noConfusion h
  | obj fields =>
    simp only [ItinItem.model_validate] at h
    cases htime : validateStrD "09:00" ((Json.obj fields).lookup "time") with
    | none => rw [htime] at h; exact Option.noConfusion h
    | some time =>
    rw [htime] at h
    cases hname : validateStr ((Json.obj fields).lookup "name") with
    | none => rw [hname] at h; exact Option.noConfusion h
    | some name =>
    rw [hname] at h
    cases htype : validateStrD "sight" ((Json.obj fields).lookup "type") with
    | none => rw [htype] at h; exact Option.noConfusion h
    | some type =>
    rw [htype] at h
    cases hlat : validateOptNum ((Json.obj fields).lookup "lat") with
    | none => rw [hlat] at h; exact Option.noConfusion h
    | some lat =>
    rw [hlat] at h
    cases hlon : validateOptNum ((Json.obj fields).lookup "lon") with
    | none => rw [hlon] at h; exact Option.noConfusion h
    | some lon =>
    rw [hlon] at h
    cases hdur : validateOptIntD ((Json.obj fields).lookup "duration_min") with
    | none => rw [hdur] at h; exact Option.noConfusion h
    | some dur =>
    rw [hdur] at h
    cases hnotes : validateOptStr ((Json.obj fields).lookup "notes") with
    | none => rw [hnotes] at h; exact Option.noConfusion h
    | some notes =>
    rw [hnotes] at h
    cases hburl : validateOptStr ((Json.obj fields).lookup "booking_url") with
    | none => rw [hburl] at h; exact Option.noConfusion h
    | some burl =>
    rw [hburl] at h
    injection h with h
    subst h
    exact ⟨validateStrD_eq _ _ _ htime, validateStr_eq _ _ hname,
      validateStrD_eq _ _ _ htype, validateOptNum_eq _ _ hlat,
      validateOptNum_eq _ _ hlon, validateOptIntD_eq _ _ hdur,
      validateOptStr_eq _ _ hnotes, validateOptStr_eq _ _ hburl⟩

theorem day_validate_preserves (j : Json) (d : DayPlan)
    (h : DayPlan.model_validate j = some d) : dayPreserves j d := by
  cases j with
  | null => exact Option.noConfusion h
  | bool b => exact Option.noConfusion h
  | num q => exact Option.noConfusion h
  | str s => exact Option.noConfusion h
  | arr es => exact Option.noConfusion h
  | obj fields =>
    simp only [DayPlan.model_validate] at h
    cases hdate : validateStr ((Json.obj fields).lookup "date") with
    | none => rw [hdate] at h; exact Option.noConfusion h
    | some date =>
    rw [hdate] at h
    cases htheme : validateOptStr ((Json.obj fields).lookup "theme") with
    | none => rw [htheme] at h; exact Option.noConfusion h
    | some theme =>
    rw [htheme] at h
    cases hitems : validateItems ((Json.obj fields).lookup "items") with
    | none => rw [hitems] at h; exact Option.noConfusion h
    | some items =>
    rw [hitems] at h
    injection h with h
    subst h
    refine ⟨validateStr_eq _ _ hdate, validateOptStr_eq _ _ htheme, ?_⟩
    rcases validateItems_eq _ _ hitems with ⟨h1, h2⟩ | ⟨es, h1, h2⟩
    · exact Or.inl ⟨h1, h2⟩
    · exact Or.inr ⟨es, h1, h2.imp fun _ _ hex => item_validate_preserves _ _ hex⟩

theorem plan_validate_preserves (j : Json) (p : Plan)
    (h : Plan.model_validate j = some p) : planPreserves j p := by
  cases j with
  | null => exact Option.noConfusion h
  | bool b => exact Option.noConfusion h
  | num q => exact Option.noConfusion h
  | str s => exact Option.noConfusion h
  | arr es => exact Option.noConfusion h
  | obj fields =>
    simp only [Plan.model_validate] at h
    cases hdest : validateAnyMap ((Json.obj fields).lookup "destination") with
    | none => rw [hdest] at h; exact Option.noConfusion h
    | some dest =>
    rw [hdest] at h
    cases hdr : validateStrMap ((Json.obj fields).lookup "date_range") with
    | none => rw [hdr] at h; exact Option.noConfusion h
    | some dr =>
    rw [hdr] at h
    cases hdp : validateDays ((Json.obj fields).lookup "daily_plan") with
    | none => rw [hdp] at h; exact Option.noConfusion h
    | some dp =>
    rw [hdp] at h
    cases hsum : validateAnyMap ((Json.obj fields).lookup "summary") with
    | none => rw [hsum] at h; exact Option.noConfusion h
    | some summ =>
    rw [hsum] at h
    injection h with h
    subst h
    refine ⟨validateAnyMap_eq _ _ hdest, validateStrMap_eq _ _ hdr, ?_,
      validateAnyMap_eq _ _ hsum⟩
    obtain ⟨es, h1, h2⟩ := validateDays_eq _ _ hdp
    exact ⟨es, h1, h2.imp fun _ _ hex => day_validate_preserves _ _ hex⟩

theorem item_required (j : Json) (it : ItinItem)
    (h : ItinItem.model_validate j = some it) :
    specItemRequiredOk j = true := by
  cases j with
  | null => exact Option.noConfusion h
  | bool b => exact Option.noConfusion h
  | num q => exact Option.noConfusion h
  | str s => exact Option.noConfusion h
  | arr es => exact Option.noConfusion h
  | obj fields =>
    have hp := item_validate_preserves _ _ h
    simp only [itemPreserves] at hp
    simp only [specItemRequiredOk]
    rw [hp.2.1]
    rfl

theorem validateItems_required (o : Option Json) (xs : List ItinItem)
    (h : validateItems o = some xs) : itemsRequiredOk o = true := by
  cases o with
  | none => rfl
  | some v =>
    cases v with
    | arr es => exact validateList_required _ _ item_required es xs h
    | null => exact Option.noConfusion h
    | bool b => exact Option.noConfusion h
    | num q => exact Option.noConfusion h
    | str a => exact Option.noConfusion h
    | obj fs => exact Option.noConfusion h

theorem day_required (j : Json) (d : DayPlan)
    (h : DayPlan.model_validate j = some d) :
    specDayRequiredOk j = true := by
  cases j with
  | null => exact Option.noConfusion h
  | bool b => exact Option.noConfusion h
  | num q => exact Option.noConfusion h
  | str s => exact Option.noConfusion h
  | arr es => exact Option.noConfusion h
  | obj fields =>
    simp only [DayPlan.model_validate] at h
    cases hdate : validateStr ((Json.obj fields).lookup "date") with
    | none => rw [hdate] at h; exact Option.noConfusion h
    | some date =>
    rw [hdate] at h
    cases htheme : validateOptStr ((Json.obj fields).lookup "theme") with
    | none => rw [htheme] at h; exact Option.noConfusion h
    | some theme =>
    rw [htheme] at h
    cases hitems : validateItems ((Json.obj fields).lookup "items") with
    | none => rw [hitems] at h; exact Option.noConfusion h
    | some items =>
    simp only [specDayRequiredOk]
    rw [validateStr_eq _ _ hdate, validateItems_required _ _ hitems]
    rfl

theorem validateDays_required (o : Option Json) (ds : List DayPlan)
    (h : validateDays o = some ds) : daysRequiredOk o = true := by
  cases o with
  | none => exact Option.noConfusion h
  | some v =>
    cases v with
    | arr es => exact validateList_required _ _ day_required es ds h
    | null => exact Option.noConfusion h
    | bool b => exact Option.noConfusion h
    | num q => exact Option.noConfusion h
    | str a => exact Option.noConfusion h
    | obj fs => exact Option.noConfusion h

theorem plan_required (j : Json) (p : Plan)
    (h : Plan.model_validate j = some p) :
    specPlanRequiredOk j = true := by
  cases j with
  | null => exact Option.noConfusion h
  | bool b => exact Option.noConfusion h
  | num q => exact Option.noConfusion h
  | str s => exact Option.noConfusion h
  | arr es => exact Option.noConfusion h
  | obj fields =>
    simp only [Plan.model_validate] at h
    cases hdest : validateAnyMap ((Json.obj fields).lookup "destination") with
    | none => rw [hdest] at h; exact Option.noConfusion h
    | some dest =>
    rw [hdest] at h
    cases hdr : validateStrMap ((Json.obj fields).lookup "date_range") with
    | none => rw [hdr] at h; exact Option.noConfusion h
    | some dr =>
    rw [hdr] at h
    cases hdp : validateDays ((Json.obj fields).lookup "daily_plan") with
    | none => rw [hdp] at h; exact Option.noConfusion h
    | some dp =>
    rw [hdp] at h
    have hsm : strMapOk ((Json.obj fields).lookup "date_range") = true := by
      rw [← validateStrMap_isSome, hdr]
      rfl
    simp only [specPlanRequiredOk]
    rw [validateAnyMap_eq _ _ hdest, hsm, validateDays_required _ _ hdp]
    cases hsum : validateAnyMap ((Json.obj fields).lookup "summary") with
    | none => rw [hsum] at h; exact Option.noConfusion h
    | some summ =>
    rw [validateAnyMap_eq _ _ hsum]
    rfl

/-- C7 (amended): every JSON value that satisfies the Itinerary schema
(required fields present and of the declared shapes, optional fields absent
or of their declared types) is accepted by the Validator with its
substantive content unchanged — only the declared defaults
(`time` → "09:00", `type` → "sight", `duration_min` → 90) are added, and
pydantic's lax mode carries coerced numeric strings into the `float`/`int`
fields; and the Validator fails with a `SchemaError` whenever a required
field (`destination`, `date_range`, `daily_plan`, `summary` at top level;
`date` and `name` at nested levels) is missing or of the wrong shape.
This is however *not* the sole error condition — see the counterexample. -/
theorem validator_characterization (j : Json) :
    (specPlanOk j = true →
      ∃ p, Plan.model_validate j = some p ∧ planPreserves j p) ∧
    (specPlanRequiredOk j = false → Plan.model_validate j = none) := by
  constructor
  · intro hok
    obtain ⟨p, hp⟩ := Option.isSome_iff_exists.mp (plan_accepts j hok)
    exact ⟨p, hp, plan_validate_preserves j p hp⟩
  · intro hbad
    cases h : Plan.model_validate j with
    | none => rfl
    | some p =>
      have := plan_required j p h
      rw [hbad] at this
      exact Bool.noConfusion this

/-- C7 witness: the theorem applied to the concrete schema-conformant
document `jGood` (accepted, content preserved) and to `jMissing`, whose
required `destination` field is absent (rejected); both hypotheses are
discharged by `rfl`. -/
theorem validator_characterization_witness :
    (∃ p, Plan.model_validate jGood = some p ∧ planPreserves jGood p) ∧
    Plan.model_validate jMissing = none :=
  ⟨(validator_characterization jGood).1 rfl,
   (validator_characterization jMissing).2 rfl⟩

/-- C7 counterexample: `jBadTime` has all required fields — `destination`,
`date_range`, `daily_plan`, `summary`, nested `date` and `name` — present
and well-shaped, yet the Validator rejects it with a `SchemaError` because
the *optional* `time` field carries a number instead of a string; "a
required field is missing or of the wrong shape" is therefore not the sole
error condition. -/
theorem validator_optional_field_counterexample :
    specPlanRequiredOk jBadTime = true ∧
    Plan.model_validate jBadTime = none :=
  ⟨rfl, rfl⟩

end BigEars
